import Mathlib

/-!
Verification of the agentic control loop in
`2025-10-21-agentic-rag-context-engineering/agent_runtime.py` (with the tool
dispatcher of `main.py`).  The Python runtime is shallowly embedded: the
external reasoning oracle (`b.AgentLoop` / `b.SubAgentLoop`) and the concrete
tool executors are uninterpreted functions gathered in an `Env`; everything the
runtime itself does (retry/repair, transcript appends, interrupt checks,
sub-agent spawning, iteration caps) is translated function by function.
Oracle calls are modelled as consuming a global call counter, so "how many
oracle calls happened" is observable; UI callbacks are modelled as an appended
event trace.
-/

namespace AgenticRag

/-- `types.Message.role`: the runtime only ever constructs these two roles. -/
inductive Role
  | user
  | assistant
deriving DecidableEq, Repr, BEq

/-- `types.Message` as constructed by the runtime: a role and a text body. -/
structure Message where
  role : Role
  message : String
deriving DecidableEq, Repr, BEq

/-- `AgentState` from `agent_runtime.py` (todo items are opaque to the core
loop, so their payload is modelled as a plain string). -/
structure AgentState where
  messages : List Message
  todos : List String
  interrupt_requested : Bool
  current_iteration : Nat
  current_depth : Nat
  working_dir : String
deriving DecidableEq, Repr

/-- A tool object returned by the oracle: its `action` kind plus the remaining
pydantic fields as `model_dump` key/value pairs (`none` = Python `None`). -/
structure Tool where
  action : String
  params : List (String × Option String)
deriving DecidableEq, Repr

/-- Field access `tool.description` / `tool.prompt` etc., via the dumped fields. -/
def Tool.getParam (t : Tool) (k : String) : String :=
  match t.params.lookup k with
  | some (some v) => v
  | _ => ""

/-- `response.model_dump(exclude={'action'})` as passed to `on_tool_start`. -/
def dump_no_action (t : Tool) : List (String × Option String) :=
  t.params.filter (fun kv => kv.1 != "action")

/-- The tool-call transcript entry text built at `agent_runtime.py:236-240`
(and identically at 130-134): header line, then one indented line per
non-`action`, non-`None` field. -/
def tool_call_str (t : Tool) : String :=
  t.params.foldl
    (fun acc kv =>
      match kv.2 with
      | some v => if kv.1 = "action" then acc else acc ++ "  " ++ kv.1 ++ ": " ++ v ++ "\n"
      | none => acc)
    ("Tool: " ++ t.action ++ "\n")

/-- The synthetic repair entry appended to the scratch transcript on an
invalid oracle output (`agent_runtime.py:91-94`, `171`, `185-188`). -/
def repair_message (raw : String) : Message :=
  ⟨Role.assistant, "Returned an invalid response: " ++ raw ++ ".\n Must be one of the types specified."⟩

/-- Python `str.startswith`, computed on the character list so that concrete
instances reduce in the kernel. -/
def starts_with (s p : String) : Bool :=
  p.data.isPrefixOf s.data

/-- The structured-payload test applied to `BamlValidationError.raw_output`
(`agent_runtime.py:85`, `179`): starts with a fenced json block, a brace or a
bracket. -/
def looks_structured (raw : String) : Bool :=
  starts_with raw "```json" || starts_with raw "\x7b" || starts_with raw "["

/-- A top-level oracle (`b.AgentLoop`) response, duck-typed as the runtime
does: `ReplyToUser`, an object carrying an `action` field, or anything else
(`other` records `type(response)` for the defensive branch at line 249). -/
inductive Response
  | reply (message : String)
  | tool (t : Tool)
  | other (typeDesc : String)
deriving DecidableEq, Repr

/-- Outcome of one `b.AgentLoop` call: a parsed response, a
`BamlValidationError` carrying the raw output, or any other exception. -/
inductive OracleR
  | ok (r : Response)
  | malformed (raw : String)
  | fatal (err : String)
deriving DecidableEq, Repr

/-- Modelled from the spec: the BAML schema (not under `src/`) restricts
`SubAgentLoop` to the `SubAgentTools` union, the action vocabulary minus the
sub-agent-spawning `AgentTool`; a schema-valid sub-agent tool is therefore a
tool whose `action` kind is not `"Agent"`. -/
def SubTool := { t : Tool // t.action ≠ "Agent" }

instance : DecidableEq SubTool := Subtype.instDecidableEq

/-- Modelled from the spec: a `SubAgentLoop` response is either `ReplyToUser`
or one member of `SubAgentTools` (every member carries an `action` field, so
the defensive no-`action` branch of the top-level loop has no analogue here). -/
inductive SubResponse
  | reply (message : String)
  | tool (t : SubTool)
deriving DecidableEq

/-- Outcome of one `b.SubAgentLoop` call. -/
inductive SubOracleR
  | ok (r : SubResponse)
  | malformed (raw : String)
  | fatal (err : String)
deriving DecidableEq

/-- The UI callbacks of `AgentCallbacks`, recorded as an event trace.  The
`tool_idx`/`total_tools` arguments of `on_tool_start` are omitted: every call
site passes the constants `(1, 1)`. -/
inductive Event
  | onIteration (n : Nat) (depth : Nat)
  | onToolStart (action : String) (params : List (String × Option String)) (depth : Nat)
  | onToolResult (result : String) (depth : Nat)
  | onAgentReply (message : String)
  | onStatusUpdate (status : String) (iteration : Nat)
  | onSubAgentStart (descr : String) (prompt : String) (depth : Nat)
  | onSubAgentComplete (result : String) (depth : Nat)
deriving DecidableEq, Repr

/-- The external collaborators: the two BAML oracle entry points (indexed by a
global oracle-call counter and fed the transcript they are shown), and the
concrete tool executors of `main.py` (`ext` for the fixed non-recursive kinds,
`extAgent` for `main.execute_agent`, which `AgentRuntime` never reaches). -/
structure Env where
  agentLoop : Nat → List Message → OracleR
  subLoop : Nat → String → List Message → SubOracleR
  ext : Tool → String → String
  extAgent : Tool → String → String

/-- The action kinds enumerated by the `match` in `main.execute_tool`
(other than `"Agent"`). -/
def known_tool_kinds : List String :=
  ["Bash", "Glob", "Grep", "LS", "Read", "Edit", "MultiEdit", "Write",
   "NotebookRead", "NotebookEdit", "WebFetch", "TodoRead", "TodoWrite",
   "WebSearch", "ExitPlanMode"]

namespace Main

/-- `main.execute_tool`: dispatch on the action kind; the fixed kinds go to
their executors, `"Agent"` to `execute_agent`, and any other kind falls
through to the textual `"Unknown tool type: ..."` result. -/
def execute_tool (env : Env) (tool : Tool) (working_dir : String) : String :=
  if known_tool_kinds.contains tool.action then env.ext tool working_dir
  else if tool.action = "Agent" then env.extAgent tool working_dir
  else "Unknown tool type: " ++ tool.action

end Main

/-- Result of the top-level retry loop (`agent_runtime.py:162-192`):
a response was obtained (`break`), an early `return (True, msg)` fired
(retry exhaustion or a non-validation exception), or the loop ended with
`response` still `None`. -/
inductive TopRetryOut
  | success (r : Response)
  | failure (msg : String)
  | noResponse
deriving DecidableEq, Repr

/-- The top-level retry loop of `run_iteration`, on a scratch copy of the
transcript.  Arguments: scratch messages, global oracle-call counter,
remaining attempts (entered with 3 = `max_retries`; the failure text quotes
that constant).  A well-formed `ReplyToUser` whose text starts with
`"Tool:"` is rejected and repaired (lines 169-173); a validation error with
plain-prose raw output becomes a reply (lines 179-182); a structured-looking
invalid output is repaired and retried (lines 183-190); any other exception is
an immediate failure (lines 191-192). -/
def top_retry (env : Env) : List Message → Nat → Nat → TopRetryOut × Nat
  | _, calls, 0 => (TopRetryOut.noResponse, calls)
  | temp, calls, rem + 1 =>
    match env.agentLoop calls temp with
    | OracleR.ok (Response.reply m) =>
      if starts_with m "Tool:" then
        if rem = 0 then
          (TopRetryOut.failure "Agent failed to return valid response after 3 attempts", calls + 1)
        else top_retry env (temp ++ [repair_message m]) (calls + 1) rem
      else (TopRetryOut.success (Response.reply m), calls + 1)
    | OracleR.ok r => (TopRetryOut.success r, calls + 1)
    | OracleR.malformed raw =>
      if looks_structured raw then
        if rem = 0 then
          (TopRetryOut.failure "Agent failed to return valid response after 3 attempts", calls + 1)
        else top_retry env (temp ++ [repair_message raw]) (calls + 1) rem
      else (TopRetryOut.success (Response.reply raw), calls + 1)
    | OracleR.fatal err => (TopRetryOut.failure ("Error calling agent: " ++ err), calls + 1)

/-- Result of the sub-agent retry loop (`agent_runtime.py:76-98`). -/
inductive SubRetryOut
  | success (r : SubResponse)
  | failure (msg : String)
  | noResponse
deriving DecidableEq

/-- The sub-agent retry loop: same bounded repair scheme, but a successfully
parsed response is accepted unconditionally (there is no `"Tool:"`-reply
check), and the failure texts carry the `Sub-agent` wording. -/
def sub_retry (env : Env) (goal : String) : List Message → Nat → Nat → SubRetryOut × Nat
  | _, calls, 0 => (SubRetryOut.noResponse, calls)
  | temp, calls, rem + 1 =>
    match env.subLoop calls goal temp with
    | SubOracleR.ok r => (SubRetryOut.success r, calls + 1)
    | SubOracleR.malformed raw =>
      if looks_structured raw then
        if rem = 0 then
          (SubRetryOut.failure "Sub-agent failed to return valid response after 3 attempts", calls + 1)
        else sub_retry env goal (temp ++ [repair_message raw]) (calls + 1) rem
      else (SubRetryOut.success (SubResponse.reply raw), calls + 1)
    | SubOracleR.fatal err => (SubRetryOut.failure ("Sub-agent error: " ++ err), calls + 1)

/-- What a dispatched tool execution hands back to its caller: the textual
result, the advanced oracle-call counter, the events emitted while it ran,
and — for a spawned sub-agent — the nested transcript, which the source
builds locally and discards (exposed here only so that properties about it
can be stated; the caller below never reads it). -/
structure ExecOut where
  result : String
  calls : Nat
  events : List Event
  sub_transcript : List Message
deriving DecidableEq

namespace AgentRuntime

/-- The dispatch `self.execute_tool(response, parent_depth + 1)` performed for
a sub-agent's tool (`agent_runtime.py:124`): `execute_tool` would route an
`"Agent"` kind back into the spawner, but the `SubAgentLoop` vocabulary
excludes that kind (see `SubTool`), so only the `main.execute_tool` branch is
reachable — the excluded branch is discharged by the vocabulary proof. -/
def sub_tool_result (env : Env) (wd : String) (s : SubTool) : String :=
  if h : s.val.action = "Agent" then absurd h s.property
  else Main.execute_tool env s.val wd

/-- One turn of the sub-agent loop body of `execute_sub_agent`
(`agent_runtime.py:67-139`): interrupt check, iteration callback, retry loop,
then reply / tool dispatch with the two transcript appends.  Arguments after
the fixed ones: nested transcript so far, oracle-call counter, events emitted
so far, completed sub-iteration count, remaining iterations (entered with
50). -/
def sub_loop (env : Env) (intr : Bool) (wd : String) (t : Tool) (parent_depth : Nat) :
    List Message → Nat → List Event → Nat → Nat → ExecOut
  | msgs, calls, evs, _, 0 =>
    { result := "Sub-agent reached max iterations", calls := calls, events := evs,
      sub_transcript := msgs }
  | msgs, calls, evs, it, rem + 1 =>
    if intr then
      { result := "Sub-agent interrupted by user", calls := calls, events := evs,
        sub_transcript := msgs }
    else
      match sub_retry env (t.getParam "prompt") msgs calls 3 with
      | (SubRetryOut.failure msg, calls2) =>
        { result := msg, calls := calls2,
          events := evs ++ [Event.onIteration (it + 1) (parent_depth + 1)],
          sub_transcript := msgs }
      | (SubRetryOut.noResponse, calls2) =>
        { result := "Sub-agent failed to return a response", calls := calls2,
          events := evs ++ [Event.onIteration (it + 1) (parent_depth + 1)],
          sub_transcript := msgs }
      | (SubRetryOut.success (SubResponse.reply m), calls2) =>
        { result := "Sub-agent completed:\nTask: " ++ t.getParam "description" ++ "\nResult: " ++ m,
          calls := calls2,
          events := evs ++ [Event.onIteration (it + 1) (parent_depth + 1),
                            Event.onSubAgentComplete m (parent_depth + 1)],
          sub_transcript := msgs }
      | (SubRetryOut.success (SubResponse.tool s), calls2) =>
        if intr then
          { result := "Sub-agent interrupted by user", calls := calls2,
            events := evs ++ [Event.onIteration (it + 1) (parent_depth + 1)],
            sub_transcript := msgs }
        else
          sub_loop env intr wd t parent_depth
            (msgs ++ [⟨Role.assistant, tool_call_str s.val⟩,
                      ⟨Role.assistant, sub_tool_result env wd s⟩])
            calls2
            (evs ++ [Event.onIteration (it + 1) (parent_depth + 1),
                     Event.onToolStart s.val.action (dump_no_action s.val) (parent_depth + 1),
                     Event.onToolResult (sub_tool_result env wd s) (parent_depth + 1)])
            (it + 1) rem

/-- `AgentRuntime.execute_sub_agent`: emit the start callback and run the
nested loop on a fresh, empty transcript for up to 50 iterations.  Only the
summary string (plus counter and events) flows back to the parent; the nested
transcript is returned solely as the specification-level record of what the
source discarded. -/
def execute_sub_agent (env : Env) (intr : Bool) (wd : String) (t : Tool)
    (parent_depth calls : Nat) : ExecOut :=
  sub_loop env intr wd t parent_depth [] calls
    [Event.onSubAgentStart (t.getParam "description") (t.getParam "prompt") (parent_depth + 1)]
    0 50

/-- `AgentRuntime.execute_tool`: route the `"Agent"` kind to the sub-agent
spawner, everything else to `main.execute_tool`. -/
def execute_tool (env : Env) (intr : Bool) (wd : String) (t : Tool)
    (depth calls : Nat) : ExecOut :=
  if t.action = "Agent" then execute_sub_agent env intr wd t depth calls
  else
    { result := Main.execute_tool env t wd, calls := calls, events := [], sub_transcript := [] }

end AgentRuntime

/-- Result of `AgentRuntime.run_iteration`: the mutated durable state, the
advanced oracle-call counter, the events emitted during this iteration, and
the `(is_complete, result_message)` pair the method returns. -/
structure IterOut where
  state : AgentState
  calls : Nat
  events : List Event
  is_complete : Bool
  result : Option String
deriving DecidableEq

namespace AgentRuntime

/-- The state mutation at the top of `run_iteration` (`agent_runtime.py:147-148`):
increment the iteration counter and record the current depth. -/
def bump (st0 : AgentState) (depth : Nat) : AgentState :=
  { st0 with current_iteration := st0.current_iteration + 1, current_depth := depth }

/-- The event pair emitted before the retry loop (`agent_runtime.py:155-160`). -/
def thinking_events (st : AgentState) (depth : Nat) : List Event :=
  [Event.onIteration st.current_iteration depth,
   Event.onStatusUpdate "Thinking..." st.current_iteration]

/-- The tool branch of `run_iteration` (`agent_runtime.py:208-246`): callbacks,
dispatch through `execute_tool`, then the two fixed-order durable transcript
appends, remaining `RUNNING` (`(False, None)`). -/
def finish_tool (env : Env) (st : AgentState) (depth calls : Nat) (evs : List Event)
    (t : Tool) : IterOut :=
  { state :=
      { st with
        messages := st.messages ++
          [⟨Role.assistant, tool_call_str t⟩,
           ⟨Role.assistant, (execute_tool env st.interrupt_requested st.working_dir t depth calls).result⟩] },
    calls := (execute_tool env st.interrupt_requested st.working_dir t depth calls).calls,
    events := evs
      ++ [Event.onToolStart t.action (dump_no_action t) depth,
          Event.onStatusUpdate ("Executing " ++ t.action ++ "...") st.current_iteration]
      ++ (execute_tool env st.interrupt_requested st.working_dir t depth calls).events
      ++ [Event.onToolResult (execute_tool env st.interrupt_requested st.working_dir t depth calls).result depth],
    is_complete := false,
    result := none }

/-- `AgentRuntime.run_iteration`: bump the iteration counter and record the
depth, check the interrupt flag before any oracle call, run the retry loop on
a scratch copy of the transcript, then settle the response: early failure,
`None` response, interrupt re-checks, terminal reply, tool dispatch, or the
defensive unexpected-type branch. -/
def run_iteration (env : Env) (st0 : AgentState) (depth calls : Nat) : IterOut :=
  if (bump st0 depth).interrupt_requested then
    { state := bump st0 depth, calls := calls, events := [], is_complete := true,
      result := some "Agent execution interrupted by user" }
  else
    match top_retry env (bump st0 depth).messages calls 3 with
    | (TopRetryOut.failure msg, calls2) =>
      { state := bump st0 depth, calls := calls2,
        events := thinking_events (bump st0 depth) depth, is_complete := true,
        result := some msg }
    | (TopRetryOut.noResponse, calls2) =>
      { state := bump st0 depth, calls := calls2,
        events := thinking_events (bump st0 depth) depth, is_complete := true,
        result := some "Agent failed to return a response" }
    | (TopRetryOut.success r, calls2) =>
      if (bump st0 depth).interrupt_requested then
        { state := bump st0 depth, calls := calls2,
          events := thinking_events (bump st0 depth) depth, is_complete := true,
          result := some "Agent execution interrupted by user" }
      else
        match r with
        | Response.reply m =>
          { state := bump st0 depth, calls := calls2,
            events := thinking_events (bump st0 depth) depth ++ [Event.onAgentReply m],
            is_complete := true, result := some m }
        | Response.tool t =>
          if (bump st0 depth).interrupt_requested then
            { state := bump st0 depth, calls := calls2,
              events := thinking_events (bump st0 depth) depth, is_complete := true,
              result := some "Agent execution interrupted by user" }
          else finish_tool env (bump st0 depth) depth calls2 (thinking_events (bump st0 depth) depth) t
        | Response.other d =>
          { state := bump st0 depth, calls := calls2,
            events := thinking_events (bump st0 depth) depth, is_complete := true,
            result := some ("Unexpected response type: " ++ d) }

/-- Result of `AgentRuntime.run_loop`. -/
structure LoopOut where
  state : AgentState
  calls : Nat
  events : List Event
  result : String
deriving DecidableEq

/-- Python `result or "Agent completed"`: `None` and the empty string are both
falsy, so either yields the canned completion text. -/
def result_or_completed : Option String → String
  | some r => if r = "" then "Agent completed" else r
  | none => "Agent completed"

/-- The `for _ in range(max_iterations)` body of `run_loop`: run iterations
until one reports completion, or fall out of the loop with the canned
maximum-iterations text. -/
def run_loop_aux (env : Env) (depth : Nat) : AgentState → Nat → List Event → Nat → LoopOut
  | st, calls, evs, 0 =>
    { state := st, calls := calls, events := evs,
      result := "Agent reached maximum iterations without completing the task" }
  | st, calls, evs, rem + 1 =>
    let o := run_iteration env st depth calls
    if o.is_complete then
      { state := o.state, calls := o.calls, events := evs ++ o.events,
        result := result_or_completed o.result }
    else run_loop_aux env depth o.state o.calls (evs ++ o.events) rem

/-- `AgentRuntime.run_loop`: append the user message to the durable transcript
(only at depth 0), then iterate.  The oracle-call counter starts at 0 for the
run. -/
def run_loop (env : Env) (st : AgentState) (user_message : String)
    (max_iterations depth : Nat) : LoopOut :=
  run_loop_aux env depth
    (if depth = 0 then { st with messages := st.messages ++ [⟨Role.user, user_message⟩] } else st)
    0 [] max_iterations

end AgentRuntime

/-- The two transcript entries one completed tool dispatch appends, in their
fixed order: the action encoding first, then the textual result. -/
def pair_entries (p : Tool × String) : List Message :=
  [⟨Role.assistant, tool_call_str p.1⟩, ⟨Role.assistant, p.2⟩]

/-- The depth argument carried by an event (0 for the depth-less callbacks). -/
def event_depth : Event → Nat
  | Event.onIteration _ d => d
  | Event.onToolStart _ _ d => d
  | Event.onToolResult _ d => d
  | Event.onAgentReply _ => 0
  | Event.onStatusUpdate _ _ => 0
  | Event.onSubAgentStart _ _ d => d
  | Event.onSubAgentComplete _ d => d

/-- Every event of the list carries a depth of at most `b`. -/
def events_le (b : Nat) (l : List Event) : Bool :=
  l.all (fun e => Nat.ble (event_depth e) b)

/-- A baseline state: empty transcript, flag clear, counters at zero. -/
def st_base : AgentState :=
  { messages := [], todos := [], interrupt_requested := false,
    current_iteration := 0, current_depth := 0, working_dir := "." }

/-- A baseline environment for concrete runs: both oracles reply at once,
tool executors echo the kind. -/
def env_base : Env :=
  { agentLoop := fun _ _ => OracleR.ok (Response.reply "done"),
    subLoop := fun _ _ _ => SubOracleR.ok (SubResponse.reply "subdone"),
    ext := fun t _ => "ran " ++ t.action,
    extAgent := fun _ _ => "main agent" }

/-- An environment whose top-level oracle always raises a validation error
with structured-looking raw output. -/
def env_malformed : Env :=
  { env_base with agentLoop := fun _ _ => OracleR.malformed "\x7bbad" }

/-- An environment whose sub-agent oracle always raises a validation error
with structured-looking raw output. -/
def env_sub_malformed : Env :=
  { env_base with subLoop := fun _ _ _ => SubOracleR.malformed "\x7bbad" }

/-- An environment whose top-level oracle call raises a non-validation
exception. -/
def env_fatal : Env :=
  { env_base with agentLoop := fun _ _ => OracleR.fatal "boom" }

/-- A delegation tool object (`AgentTool`) with a description and prompt. -/
def agent_tool : Tool :=
  ⟨"Agent", [("action", some "Agent"), ("description", some "task d"), ("prompt", some "p")]⟩

/-- An environment whose top-level oracle first delegates to a sub-agent and
then replies; the sub-agent oracle replies with a `"Tool:"`-prefixed text. -/
def env_sub_tool_reply : Env :=
  { env_base with
    agentLoop := fun n _ =>
      if n = 0 then OracleR.ok (Response.tool agent_tool)
      else OracleR.ok (Response.reply "done"),
    subLoop := fun _ _ _ => SubOracleR.ok (SubResponse.reply "Tool: Bash") }

/-- An environment whose top-level oracle proposes a tool of a kind unknown
to `main.execute_tool`. -/
def env_unknown_kind : Env :=
  { env_base with
    agentLoop := fun n _ =>
      if n = 0 then OracleR.ok (Response.tool ⟨"Frobnicate", [("action", some "Frobnicate")]⟩)
      else OracleR.ok (Response.reply "done") }

/-- An environment whose top-level oracle returns an object that is neither a
`ReplyToUser` nor carries an `action` field. -/
def env_other : Env :=
  { env_base with agentLoop := fun _ _ => OracleR.ok (Response.other "NoneType") }

/-- An environment whose top-level oracle returns a well-formed `ReplyToUser`
whose text starts with `"Tool:"`, then a genuine reply. -/
def env_tool_reply : Env :=
  { env_base with
    agentLoop := fun n _ =>
      if n = 0 then OracleR.ok (Response.reply "Tool: Bash\n  command: ls\n")
      else OracleR.ok (Response.reply "done") }

/-- `st_base` with a nonzero iteration counter, as a host that reuses an
`AgentState` across runs without resetting it would hand to `run_loop`. -/
def st_counter_five : AgentState :=
  { st_base with current_iteration := 5 }

/-- `st_base` with the interrupt flag already set. -/
def st_interrupted : AgentState :=
  { st_base with interrupt_requested := true }

/-- Each remaining attempt of the top-level retry loop consumes at most one
oracle call. -/
theorem top_retry_calls_le (env : Env) :
    ∀ (fuel : Nat) (temp : List Message) (calls : Nat),
      (top_retry env temp calls fuel).2 ≤ calls + fuel := by
  intro fuel
  induction fuel with
  | zero => intro temp calls; simp [top_retry]
  | succ n ih =>
    intro temp calls
    simp only [top_retry]
    split <;>
      first
        | omega
        | (split <;>
            first
              | omega
              | (split <;> first | omega | exact Nat.le_trans (ih _ _) (by omega)))

/-- One-step unfolding of `top_retry` at positive fuel. -/
theorem top_retry_unfold (env : Env) (temp : List Message) (calls rem : Nat) :
    top_retry env temp calls (rem + 1)
      = match env.agentLoop calls temp with
        | OracleR.ok (Response.reply m) =>
          if starts_with m "Tool:" then
            if rem = 0 then
              (TopRetryOut.failure "Agent failed to return valid response after 3 attempts", calls + 1)
            else top_retry env (temp ++ [repair_message m]) (calls + 1) rem
          else (TopRetryOut.success (Response.reply m), calls + 1)
        | OracleR.ok r => (TopRetryOut.success r, calls + 1)
        | OracleR.malformed raw =>
          if looks_structured raw then
            if rem = 0 then
              (TopRetryOut.failure "Agent failed to return valid response after 3 attempts", calls + 1)
            else top_retry env (temp ++ [repair_message raw]) (calls + 1) rem
          else (TopRetryOut.success (Response.reply raw), calls + 1)
        | OracleR.fatal err => (TopRetryOut.failure ("Error calling agent: " ++ err), calls + 1) :=
  rfl

/-- One-step unfolding of `sub_retry` at positive fuel. -/
theorem sub_retry_unfold (env : Env) (goal : String) (temp : List Message) (calls rem : Nat) :
    sub_retry env goal temp calls (rem + 1)
      = match env.subLoop calls goal temp with
        | SubOracleR.ok r => (SubRetryOut.success r, calls + 1)
        | SubOracleR.malformed raw =>
          if looks_structured raw then
            if rem = 0 then
              (SubRetryOut.failure "Sub-agent failed to return valid response after 3 attempts", calls + 1)
            else sub_retry env goal (temp ++ [repair_message raw]) (calls + 1) rem
          else (SubRetryOut.success (SubResponse.reply raw), calls + 1)
        | SubOracleR.fatal err => (SubRetryOut.failure ("Sub-agent error: " ++ err), calls + 1) :=
  rfl

/-- If every oracle call yields a structured-looking validation error, the
top-level retry loop consumes exactly its attempt budget and escalates with
the bounded-retry failure text. -/
theorem top_retry_all_malformed (env : Env) :
    ∀ (k : Nat) (temp : List Message) (calls : Nat) (raw : Nat → String),
      (∀ n ms, n < k + 1 → env.agentLoop (calls + n) ms = OracleR.malformed (raw n)) →
      (∀ n, n < k + 1 → looks_structured (raw n) = true) →
      top_retry env temp calls (k + 1)
        = (TopRetryOut.failure "Agent failed to return valid response after 3 attempts",
           calls + (k + 1)) := by
  intro k
  induction k with
  | zero =>
    intro temp calls raw h hs
    have h0 := h 0 temp (by omega)
    rw [Nat.add_zero] at h0
    simp [top_retry, h0, hs 0 (by omega)]
  | succ n ih =>
    intro temp calls raw h hs
    have h0 := h 0 temp (by omega)
    rw [Nat.add_zero] at h0
    have step := ih (temp ++ [repair_message (raw 0)]) (calls + 1) (fun i => raw (i + 1))
      (fun i ms hi => by
        have := h (i + 1) ms (by omega)
        rw [show calls + (i + 1) = calls + 1 + i by omega] at this
        exact this)
      (fun i hi => hs (i + 1) (by omega))
    rw [top_retry_unfold, h0]
    simp only [hs 0 (by omega), if_true, Nat.succ_ne_zero, if_false, step]
    rw [show calls + 1 + (n + 1) = calls + (n + 1 + 1) by omega]

/-- If every oracle call yields a structured-looking validation error, the
sub-agent retry loop consumes exactly its attempt budget and escalates with
the bounded-retry failure text. -/
theorem sub_retry_all_malformed (env : Env) (goal : String) :
    ∀ (k : Nat) (temp : List Message) (calls : Nat) (raw : Nat → String),
      (∀ n ms, n < k + 1 → env.subLoop (calls + n) goal ms = SubOracleR.malformed (raw n)) →
      (∀ n, n < k + 1 → looks_structured (raw n) = true) →
      sub_retry env goal temp calls (k + 1)
        = (SubRetryOut.failure "Sub-agent failed to return valid response after 3 attempts",
           calls + (k + 1)) := by
  intro k
  induction k with
  | zero =>
    intro temp calls raw h hs
    have h0 := h 0 temp (by omega)
    rw [Nat.add_zero] at h0
    simp [sub_retry, h0, hs 0 (by omega)]
  | succ n ih =>
    intro temp calls raw h hs
    have h0 := h 0 temp (by omega)
    rw [Nat.add_zero] at h0
    have step := ih (temp ++ [repair_message (raw 0)]) (calls + 1) (fun i => raw (i + 1))
      (fun i ms hi => by
        have := h (i + 1) ms (by omega)
        rw [show calls + (i + 1) = calls + 1 + i by omega] at this
        exact this)
      (fun i hi => hs (i + 1) (by omega))
    rw [sub_retry_unfold, h0]
    simp only [hs 0 (by omega), if_true, Nat.succ_ne_zero, if_false, step]
    rw [show calls + 1 + (n + 1) = calls + (n + 1 + 1) by omega]

/-- Each remaining attempt of the sub-agent retry loop consumes at most one
oracle call. -/
theorem sub_retry_calls_le (env : Env) (goal : String) :
    ∀ (fuel : Nat) (temp : List Message) (calls : Nat),
      (sub_retry env goal temp calls fuel).2 ≤ calls + fuel := by
  intro fuel
  induction fuel with
  | zero => intro temp calls; simp [sub_retry]
  | succ n ih =>
    intro temp calls
    simp only [sub_retry]
    split <;>
      first
        | omega
        | (split <;>
            first
              | omega
              | (split <;> first | omega | exact Nat.le_trans (ih _ _) (by omega)))

open AgentRuntime in
/-- Characterization of one `run_iteration`: the counter is incremented by
exactly one, the interrupt flag, working directory and todos are untouched,
a terminal iteration leaves the durable transcript unchanged, and a
non-terminal iteration appends exactly the contiguous call/result pair and
reports `(False, None)`. -/
theorem run_iteration_spec (env : Env) (st : AgentState) (depth calls : Nat) :
    (run_iteration env st depth calls).state.current_iteration = st.current_iteration + 1 ∧
    (run_iteration env st depth calls).state.interrupt_requested = st.interrupt_requested ∧
    (run_iteration env st depth calls).state.working_dir = st.working_dir ∧
    (run_iteration env st depth calls).state.todos = st.todos ∧
    ((run_iteration env st depth calls).is_complete = true →
      (run_iteration env st depth calls).state.messages = st.messages) ∧
    ((run_iteration env st depth calls).is_complete = false →
      (run_iteration env st depth calls).result = none ∧
      ∃ t r, (run_iteration env st depth calls).state.messages
        = st.messages ++ pair_entries (t, r)) := by
  unfold run_iteration finish_tool
  repeat' split
  all_goals simp [bump, pair_entries]

open AgentRuntime in
/-- Loop-level invariant: across any number of iterations, the durable
transcript grows by a flat list of contiguous call/result pairs, and the
iteration counter never decreases. -/
theorem run_loop_aux_spec (env : Env) (depth : Nat) :
    ∀ (rem : Nat) (st : AgentState) (calls : Nat) (evs : List Event),
      (∃ ps : List (Tool × String),
        (run_loop_aux env depth st calls evs rem).state.messages
          = st.messages ++ ps.flatMap pair_entries) ∧
      st.current_iteration ≤ (run_loop_aux env depth st calls evs rem).state.current_iteration := by
  intro rem
  induction rem with
  | zero =>
    intro st calls evs
    exact ⟨⟨[], by simp [run_loop_aux]⟩, by simp [run_loop_aux]⟩
  | succ n ih =>
    intro st calls evs
    have hspec := run_iteration_spec env st depth calls
    by_cases h : (run_iteration env st depth calls).is_complete = true
    · constructor
      · exact ⟨[], by simp [run_loop_aux, h, hspec.2.2.2.2.1 h]⟩
      · simp only [run_loop_aux, h, if_true]
        rw [hspec.1]
        omega
    · rw [Bool.not_eq_true] at h
      obtain ⟨⟨ps, hm⟩, hc⟩ :=
        ih (run_iteration env st depth calls).state (run_iteration env st depth calls).calls
          (evs ++ (run_iteration env st depth calls).events)
      obtain ⟨-, t, r, hmsgs⟩ := hspec.2.2.2.2.2 h
      constructor
      · refine ⟨(t, r) :: ps, ?_⟩
        simp only [run_loop_aux, h, Bool.false_eq_true, if_false]
        rw [hm, hmsgs]
        simp
      · simp only [run_loop_aux, h, Bool.false_eq_true, if_false]
        have h1 := hspec.1
        omega

open AgentRuntime in
/-- The nested transcript built by the sub-agent loop also grows purely by
contiguous call/result pairs on top of what it starts from. -/
theorem sub_loop_transcript (env : Env) (intr : Bool) (wd : String) (t : Tool) (pd : Nat) :
    ∀ (rem : Nat) (msgs : List Message) (calls : Nat) (evs : List Event) (it : Nat),
      ∃ ps : List (Tool × String),
        (sub_loop env intr wd t pd msgs calls evs it rem).sub_transcript
          = msgs ++ ps.flatMap pair_entries := by
  intro rem
  induction rem with
  | zero =>
    intro msgs calls evs it
    exact ⟨[], by simp [sub_loop]⟩
  | succ n ih =>
    intro msgs calls evs it
    simp only [sub_loop]
    split
    · exact ⟨[], by simp⟩
    · split
      · exact ⟨[], by simp⟩
      · exact ⟨[], by simp⟩
      · exact ⟨[], by simp⟩
      · rename_i s calls2 heq
        obtain ⟨ps, hp⟩ :=
            ih (msgs ++ [⟨Role.assistant, tool_call_str s.val⟩,
                         ⟨Role.assistant, sub_tool_result env wd s⟩])
              calls2
              (evs ++ [Event.onIteration (it + 1) (pd + 1),
                       Event.onToolStart s.val.action (dump_no_action s.val) (pd + 1),
                       Event.onToolResult (sub_tool_result env wd s) (pd + 1)])
              (it + 1)
        refine ⟨(s.val, sub_tool_result env wd s) :: ps, ?_⟩
        rw [hp]
        simp [pair_entries]

/-- The sub-agent retry loop escalates only with the bounded-retry text or a
`"Sub-agent error: ..."` text. -/
theorem sub_retry_failure_forms (env : Env) (goal : String) :
    ∀ (fuel : Nat) (temp : List Message) (calls : Nat) (msg : String) (calls2 : Nat),
      sub_retry env goal temp calls fuel = (SubRetryOut.failure msg, calls2) →
      msg = "Sub-agent failed to return valid response after 3 attempts" ∨
      ∃ e, msg = "Sub-agent error: " ++ e := by
  intro fuel
  induction fuel with
  | zero =>
    intro temp calls msg calls2 h
    simp [sub_retry] at h
  | succ n ih =>
    intro temp calls msg calls2 h
    rw [sub_retry_unfold] at h
    revert h
    split
    · intro h
      simp at h
    · split
      · split
        · intro h
          simp at h
          exact Or.inl h.1.symm
        · intro h
          exact ih _ _ _ _ h
      · intro h
        simp at h
    · intro h
      simp at h
      exact Or.inr ⟨_, h.1.symm⟩

open AgentRuntime in
/-- The sub-agent loop terminates only with one of the six textual outcomes
of `execute_sub_agent`: a completion summary, the interrupt text, the
bounded-retry text, an error text, the no-response text, or the
max-iterations text. -/
theorem sub_loop_result_forms (env : Env) (intr : Bool) (wd : String) (t : Tool) (pd : Nat) :
    ∀ (rem : Nat) (msgs : List Message) (calls : Nat) (evs : List Event) (it : Nat),
      (sub_loop env intr wd t pd msgs calls evs it rem).result
          = "Sub-agent interrupted by user" ∨
      (∃ m, (sub_loop env intr wd t pd msgs calls evs it rem).result
          = "Sub-agent completed:\nTask: " ++ t.getParam "description" ++ "\nResult: " ++ m) ∨
      (sub_loop env intr wd t pd msgs calls evs it rem).result
          = "Sub-agent failed to return valid response after 3 attempts" ∨
      (∃ e, (sub_loop env intr wd t pd msgs calls evs it rem).result
          = "Sub-agent error: " ++ e) ∨
      (sub_loop env intr wd t pd msgs calls evs it rem).result
          = "Sub-agent failed to return a response" ∨
      (sub_loop env intr wd t pd msgs calls evs it rem).result
          = "Sub-agent reached max iterations" := by
  intro rem
  induction rem with
  | zero =>
    intro msgs calls evs it
    simp [sub_loop]
  | succ n ih =>
    intro msgs calls evs it
    simp only [sub_loop]
    split
    · simp
    · split
      · rename_i msg calls2 heq
        have := sub_retry_failure_forms env (t.getParam "prompt") 3 msgs calls msg calls2 heq
        rcases this with h1 | ⟨e, h2⟩
        · subst h1; simp
        · subst h2
          exact Or.inr (Or.inr (Or.inr (Or.inl ⟨e, rfl⟩)))
      · simp
      · rename_i m calls2 heq
        exact Or.inr (Or.inl ⟨m, rfl⟩)
      · exact ih _ _ _ _

theorem events_le_append (b : Nat) (l1 l2 : List Event) :
    events_le b (l1 ++ l2) = (events_le b l1 && events_le b l2) := by
  simp [events_le]

open AgentRuntime in
/-- Every event the sub-agent loop emits on top of its accumulator carries
depth `parent_depth + 1`. -/
theorem sub_loop_events_le (env : Env) (intr : Bool) (wd : String) (t : Tool) (pd : Nat) :
    ∀ (rem : Nat) (msgs : List Message) (calls : Nat) (evs : List Event) (it : Nat),
      events_le (pd + 1) evs = true →
      events_le (pd + 1) (sub_loop env intr wd t pd msgs calls evs it rem).events = true := by
  intro rem
  induction rem with
  | zero =>
    intro msgs calls evs it hacc
    simpa [sub_loop] using hacc
  | succ n ih =>
    intro msgs calls evs it hacc
    simp only [sub_loop]
    split
    · exact hacc
    · split
      · rw [events_le_append, hacc]
        simp [events_le, event_depth, Nat.ble_eq]
      · rw [events_le_append, hacc]
        simp [events_le, event_depth, Nat.ble_eq]
      · rw [events_le_append, hacc]
        simp [events_le, event_depth, Nat.ble_eq]
      · rename_i s calls2 heq
        apply ih
        rw [events_le_append, hacc]
        simp [events_le, event_depth, Nat.ble_eq]

open AgentRuntime in
/-- Every event emitted by a dispatched tool execution (in particular by a
spawned sub-agent) carries depth `depth + 1`. -/
theorem execute_tool_events_le (env : Env) (intr : Bool) (wd : String) (t : Tool)
    (depth calls : Nat) :
    events_le (depth + 1) (execute_tool env intr wd t depth calls).events = true := by
  unfold execute_tool execute_sub_agent
  split
  · apply sub_loop_events_le
    simp [events_le, event_depth]
  · simp [events_le]

open AgentRuntime in
/-- Every event emitted during one top-level iteration at `depth` carries a
depth of at most `depth + 1`. -/
theorem run_iteration_events_le (env : Env) (st : AgentState) (depth calls : Nat) :
    events_le (depth + 1) (run_iteration env st depth calls).events = true := by
  unfold run_iteration finish_tool
  repeat' split
  all_goals
    simp [events_le_append, events_le, event_depth, thinking_events, Nat.ble_eq]
  rename_i p calls2 r a heq
  have := execute_tool_events_le env (bump st depth).interrupt_requested
    (bump st depth).working_dir a depth calls2
  simpa [events_le, event_depth, Nat.ble_eq] using this

open AgentRuntime in
/-- Every event emitted during a whole loop run at `depth` carries a depth of
at most `depth + 1`. -/
theorem run_loop_aux_events_le (env : Env) (depth : Nat) :
    ∀ (rem : Nat) (st : AgentState) (calls : Nat) (evs : List Event),
      events_le (depth + 1) evs = true →
      events_le (depth + 1) (run_loop_aux env depth st calls evs rem).events = true := by
  intro rem
  induction rem with
  | zero =>
    intro st calls evs hacc
    simpa [run_loop_aux] using hacc
  | succ n ih =>
    intro st calls evs hacc
    by_cases h : (run_iteration env st depth calls).is_complete = true
    · simp only [run_loop_aux, h, if_true]
      rw [events_le_append, hacc, run_iteration_events_le]
      rfl
    · rw [Bool.not_eq_true] at h
      simp only [run_loop_aux, h, Bool.false_eq_true, if_false]
      apply ih
      rw [events_le_append, hacc, run_iteration_events_le]
      rfl

/-- A flat list of call/result pairs contributes exactly two entries per
pair. -/
theorem pair_entries_flat_length (ps : List (Tool × String)) :
    (ps.flatMap pair_entries).length = 2 * ps.length := by
  induction ps with
  | nil => simp
  | cons p ps ih =>
    simp [pair_entries, ih]
    omega

/-- Every entry of a flat list of call/result pairs carries the assistant
role. -/
theorem pair_entries_flat_roles (ps : List (Tool × String)) :
    (ps.flatMap pair_entries).all (fun m => m.role == Role.assistant) = true := by
  induction ps with
  | nil => simp
  | cons p ps ih =>
    simp [pair_entries, ih]
    rfl

/-- C1: each completed non-terminal tool iteration appends exactly the
contiguous call-then-result pair to the durable transcript, at top level and
inside a sub-agent alike; hence after N completed tool iterations a run's
transcript has gained exactly 2N entries beyond the initial user message,
alternating call/result with the call first and nothing interleaved. -/
theorem c1_tool_iterations_append_contiguous_pairs :
    (∀ (env : Env) (st : AgentState) (u : String) (n d : Nat),
      ∃ ps : List (Tool × String),
        (AgentRuntime.run_loop env st u n d).state.messages
          = (if d = 0 then st.messages ++ [⟨Role.user, u⟩] else st.messages)
              ++ ps.flatMap pair_entries ∧
        (AgentRuntime.run_loop env st u n d).state.messages.length
          = (if d = 0 then st.messages ++ [⟨Role.user, u⟩] else st.messages).length
              + 2 * ps.length) ∧
    (∀ (env : Env) (intr : Bool) (wd : String) (t : Tool) (pd calls : Nat),
      ∃ ps : List (Tool × String),
        (AgentRuntime.execute_sub_agent env intr wd t pd calls).sub_transcript
          = ps.flatMap pair_entries) := by
  constructor
  · intro env st u n d
    obtain ⟨⟨ps, hm⟩, -⟩ := run_loop_aux_spec env d n
      (if d = 0 then { st with messages := st.messages ++ [⟨Role.user, u⟩] } else st) 0 []
    have hbase :
        (if d = 0 then { st with messages := st.messages ++ [⟨Role.user, u⟩] } else st).messages
          = (if d = 0 then st.messages ++ [⟨Role.user, u⟩] else st.messages) := by
      split <;> rfl
    refine ⟨ps, ?_, ?_⟩
    · simp only [AgentRuntime.run_loop]
      rw [hm, hbase]
    · simp only [AgentRuntime.run_loop]
      rw [hm, hbase, List.length_append, pair_entries_flat_length]
  · intro env intr wd t pd calls
    obtain ⟨ps, hp⟩ := sub_loop_transcript env intr wd t pd 50 [] calls _ 0
    exact ⟨ps, by simpa [AgentRuntime.execute_sub_agent] using hp⟩

/-- C2: a single action decision (one run of the retry loop, at any depth)
makes at most 3 oracle calls; three structured-looking malformed outputs in a
row terminate the decision on the third attempt with the bounded-retry
failure text, having made exactly 3 calls, so a fourth call never occurs. -/
theorem c2_retry_bounded_three_attempts :
    (∀ (env : Env) (temp : List Message) (calls : Nat),
        (top_retry env temp calls 3).2 ≤ calls + 3) ∧
    (∀ (env : Env) (goal : String) (temp : List Message) (calls : Nat),
        (sub_retry env goal temp calls 3).2 ≤ calls + 3) ∧
    (∀ (env : Env) (temp : List Message) (calls : Nat) (raw : Nat → String),
        (∀ n ms, n < 3 → env.agentLoop (calls + n) ms = OracleR.malformed (raw n)) →
        (∀ n, n < 3 → looks_structured (raw n) = true) →
        top_retry env temp calls 3
          = (TopRetryOut.failure "Agent failed to return valid response after 3 attempts",
             calls + 3)) ∧
    (∀ (env : Env) (goal : String) (temp : List Message) (calls : Nat) (raw : Nat → String),
        (∀ n ms, n < 3 → env.subLoop (calls + n) goal ms = SubOracleR.malformed (raw n)) →
        (∀ n, n < 3 → looks_structured (raw n) = true) →
        sub_retry env goal temp calls 3
          = (SubRetryOut.failure "Sub-agent failed to return valid response after 3 attempts",
             calls + 3)) := by
  refine ⟨fun env temp calls => top_retry_calls_le env 3 temp calls,
          fun env goal temp calls => sub_retry_calls_le env goal 3 temp calls,
          fun env temp calls raw h hs => top_retry_all_malformed env 2 temp calls raw h hs,
          fun env goal temp calls raw h hs => sub_retry_all_malformed env goal 2 temp calls raw h hs⟩

/-- Witness for C2: a concrete oracle that always produces structured-looking
malformed output exhausts the three attempts and fails. -/
theorem c2_retry_bounded_three_attempts_witness :
    top_retry env_malformed [] 0 3
      = (TopRetryOut.failure "Agent failed to return valid response after 3 attempts", 3) :=
  c2_retry_bounded_three_attempts.2.2.1 env_malformed [] 0 (fun _ => "\x7bbad")
    (fun _ _ _ => rfl)
    (fun _ _ => by show looks_structured "\x7bbad" = true; decide)

open AgentRuntime in
/-- C3: when the interrupt flag is set (and, being never cleared by the loop,
remains set), any run with a positive iteration budget terminates immediately
with the interrupted outcome: zero oracle calls, zero events (in particular no
tool dispatch), and no transcript change beyond the initial user message. -/
theorem c3_interrupt_stops_before_dispatch :
    ∀ (env : Env) (st : AgentState) (u : String) (n d : Nat),
      st.interrupt_requested = true →
      (run_loop env st u (n + 1) d).result = "Agent execution interrupted by user" ∧
      (run_loop env st u (n + 1) d).calls = 0 ∧
      (run_loop env st u (n + 1) d).events = [] ∧
      (run_loop env st u (n + 1) d).state.messages
        = (if d = 0 then st.messages ++ [⟨Role.user, u⟩] else st.messages) := by
  intro env st u n d hI
  have hflag :
      (bump (if d = 0 then { st with messages := st.messages ++ [⟨Role.user, u⟩] } else st)
        d).interrupt_requested = true := by
    simp only [bump]
    split <;> simpa using hI
  have hbase :
      (if d = 0 then { st with messages := st.messages ++ [⟨Role.user, u⟩] } else st).messages
        = (if d = 0 then st.messages ++ [⟨Role.user, u⟩] else st.messages) := by
    split <;> rfl
  simp only [run_loop, run_loop_aux, run_iteration, hflag, if_true, result_or_completed]
  refine ⟨by simp, by simp, by simp, ?_⟩
  simp [bump, hbase]

/-- Witness for C3: a concrete pre-interrupted run. -/
theorem c3_interrupt_stops_before_dispatch_witness :
    (AgentRuntime.run_loop env_base st_interrupted "hi" 5 0).result
        = "Agent execution interrupted by user" ∧
    (AgentRuntime.run_loop env_base st_interrupted "hi" 5 0).calls = 0 ∧
    (AgentRuntime.run_loop env_base st_interrupted "hi" 5 0).events = [] ∧
    (AgentRuntime.run_loop env_base st_interrupted "hi" 5 0).state.messages
        = (if 0 = 0 then st_interrupted.messages ++ [⟨Role.user, "hi"⟩]
           else st_interrupted.messages) :=
  c3_interrupt_stops_before_dispatch env_base st_interrupted "hi" 4 0 rfl

/-- C5 counterexample: `run_loop` does not reset the iteration counter.  On a
state whose counter is 5, a run whose single iteration ends in a reply leaves
the counter at 6; had the counter been reset to 0 at the start of the run, it
would be 1. -/
theorem c5_counterexample_counter_not_reset :
    (AgentRuntime.run_loop env_base st_counter_five "hi" 9 0).result = "done" ∧
    (AgentRuntime.run_loop env_base st_counter_five "hi" 9 0).state.current_iteration = 6 := by
  decide

open AgentRuntime in
/-- C5 (amended): `run_loop` itself does not reset the iteration counter — the
hosts do (the TUI zeroes it before each command, the CLI builds a fresh
state); within a run the counter is incremented by exactly one per iteration
and is therefore monotonically non-decreasing. -/
theorem c5_counter_monotone_not_reset :
    (∀ (env : Env) (st : AgentState) (depth calls : Nat),
      (run_iteration env st depth calls).state.current_iteration
        = st.current_iteration + 1) ∧
    (∀ (env : Env) (st : AgentState) (u : String) (n d : Nat),
      st.current_iteration ≤ (run_loop env st u n d).state.current_iteration) := by
  constructor
  · intro env st depth calls
    exact (run_iteration_spec env st depth calls).1
  · intro env st u n d
    have h := (run_loop_aux_spec env d n
      (if d = 0 then { st with messages := st.messages ++ [⟨Role.user, u⟩] } else st) 0 []).2
    have hco :
        (if d = 0 then { st with messages := st.messages ++ [⟨Role.user, u⟩] } else st).current_iteration
          = st.current_iteration := by
      split <;> rfl
    rw [hco] at h
    exact h

/-- C4 counterexample: not every sub-agent termination yields a text of the
form `"Task: {description}\nResult: {summary}"`.  An interrupted sub-agent
returns the fixed text `"Sub-agent interrupted by user"`, which does not even
start with `"Task:"` (and the reply-case text carries the extra
`"Sub-agent completed:\n"` prefix). -/
theorem c4_counterexample_summary_form :
    (AgentRuntime.execute_sub_agent env_base true "." agent_tool 0 0).result
        = "Sub-agent interrupted by user" ∧
    starts_with (AgentRuntime.execute_sub_agent env_base true "." agent_tool 0 0).result
        "Task:" = false := by
  decide

open AgentRuntime in
/-- C4 (amended): a sub-agent termination returns exactly one string — the
reply case yields `"Sub-agent completed:\nTask: {description}\nResult:
{summary}"` and the interrupt / retry-exhaustion / error / no-response /
iteration-cap cases yield their fixed diagnostic texts — and the parent
appends that single string as the result half of its call/result pair, so the
nested transcript itself never reaches the parent. -/
theorem c4_subagent_single_summary :
    (∀ (env : Env) (intr : Bool) (wd : String) (t : Tool) (pd calls : Nat),
      (execute_sub_agent env intr wd t pd calls).result = "Sub-agent interrupted by user" ∨
      (∃ m, (execute_sub_agent env intr wd t pd calls).result
          = "Sub-agent completed:\nTask: " ++ t.getParam "description" ++ "\nResult: " ++ m) ∨
      (execute_sub_agent env intr wd t pd calls).result
          = "Sub-agent failed to return valid response after 3 attempts" ∨
      (∃ e, (execute_sub_agent env intr wd t pd calls).result = "Sub-agent error: " ++ e) ∨
      (execute_sub_agent env intr wd t pd calls).result = "Sub-agent failed to return a response" ∨
      (execute_sub_agent env intr wd t pd calls).result = "Sub-agent reached max iterations") ∧
    (∀ (env : Env) (st : AgentState) (depth calls : Nat) (t : Tool),
      st.interrupt_requested = false →
      env.agentLoop calls st.messages = OracleR.ok (Response.tool t) →
      t.action = "Agent" →
      (run_iteration env st depth calls).state.messages
        = st.messages ++
          [⟨Role.assistant, tool_call_str t⟩,
           ⟨Role.assistant,
            (execute_sub_agent env false st.working_dir t depth (calls + 1)).result⟩]) := by
  constructor
  · intro env intr wd t pd calls
    exact sub_loop_result_forms env intr wd t pd 50 [] calls _ 0
  · intro env st depth calls t hI horacle hA
    have hbump : (bump st depth).interrupt_requested = false := by simp [bump, hI]
    have hretry : top_retry env (bump st depth).messages calls 3
        = (TopRetryOut.success (Response.tool t), calls + 1) := by
      have hm : env.agentLoop calls (bump st depth).messages = OracleR.ok (Response.tool t) := by
        simpa [bump] using horacle
      rw [show (3 : Nat) = 2 + 1 from rfl, top_retry_unfold, hm]
    simp only [run_iteration, hbump, Bool.false_eq_true, if_false, hretry, finish_tool,
               execute_tool, hA, if_true]
    simp [bump, hI]

/-- Witness for C4: a concrete delegation in which the sub-agent immediately
replies; the parent transcript gains exactly the call entry and the single
summary entry. -/
theorem c4_subagent_single_summary_witness :
    (AgentRuntime.run_iteration env_sub_tool_reply st_base 0 0).state.messages
      = st_base.messages ++
        [⟨Role.assistant, tool_call_str agent_tool⟩,
         ⟨Role.assistant,
          (AgentRuntime.execute_sub_agent env_sub_tool_reply false st_base.working_dir
            agent_tool 0 1).result⟩] :=
  c4_subagent_single_summary.2 env_sub_tool_reply st_base 0 0 agent_tool rfl rfl rfl

/-- C6 counterexample: the nested sub-agent loop does not reject a well-formed
`Reply` whose text begins with `"Tool:"` — it accepts it as a genuine terminal
reply after a single oracle call, producing the completion summary. -/
theorem c6_counterexample_subloop_accepts_tool_reply :
    (AgentRuntime.execute_sub_agent env_sub_tool_reply false "." agent_tool 0 0).result
        = "Sub-agent completed:\nTask: task d\nResult: Tool: Bash" ∧
    (AgentRuntime.execute_sub_agent env_sub_tool_reply false "." agent_tool 0 0).calls = 1 ∧
    starts_with "Tool: Bash" "Tool:" = true := by
  decide

/-- C6 (amended): only the top-level retry loop rejects a well-formed `Reply`
beginning with `"Tool:"` — appending a repair message to the scratch
transcript and retrying, or failing on the last attempt; the sub-agent retry
loop performs no such check and accepts any well-formed response, a
`"Tool:"`-prefixed reply included, on the spot. -/
theorem c6_tool_reply_rejected_only_at_top_level :
    (∀ (env : Env) (temp : List Message) (calls : Nat) (m : String) (rem : Nat),
        env.agentLoop calls temp = OracleR.ok (Response.reply m) →
        starts_with m "Tool:" = true →
        top_retry env temp calls (rem + 2)
          = top_retry env (temp ++ [repair_message m]) (calls + 1) (rem + 1)) ∧
    (∀ (env : Env) (temp : List Message) (calls : Nat) (m : String),
        env.agentLoop calls temp = OracleR.ok (Response.reply m) →
        starts_with m "Tool:" = true →
        top_retry env temp calls 1
          = (TopRetryOut.failure "Agent failed to return valid response after 3 attempts",
             calls + 1)) ∧
    (∀ (env : Env) (goal : String) (temp : List Message) (calls : Nat) (m : String) (rem : Nat),
        env.subLoop calls goal temp = SubOracleR.ok (SubResponse.reply m) →
        sub_retry env goal temp calls (rem + 1)
          = (SubRetryOut.success (SubResponse.reply m), calls + 1)) := by
  refine ⟨?_, ?_, ?_⟩
  · intro env temp calls m rem h hm
    show top_retry env temp calls (rem + 1 + 1) = _
    rw [top_retry_unfold, h]
    simp [hm, Nat.succ_ne_zero]
  · intro env temp calls m h hm
    show top_retry env temp calls (0 + 1) = _
    rw [top_retry_unfold, h]
    simp [hm]
  · intro env goal temp calls m rem h
    rw [sub_retry_unfold, h]

/-- Witness for C6: concrete instances of the top-level rejection and of the
sub-level acceptance. -/
theorem c6_tool_reply_rejected_only_at_top_level_witness :
    top_retry env_tool_reply [] 0 3
      = top_retry env_tool_reply [repair_message "Tool: Bash\n  command: ls\n"] 1 2 ∧
    sub_retry env_sub_tool_reply "p" [] 0 3
      = (SubRetryOut.success (SubResponse.reply "Tool: Bash"), 1) :=
  ⟨by
    have h := c6_tool_reply_rejected_only_at_top_level.1 env_tool_reply [] 0
      "Tool: Bash\n  command: ls\n" 1 rfl (by decide)
    simpa using h,
   c6_tool_reply_rejected_only_at_top_level.2.2 env_sub_tool_reply "p" [] 0 "Tool: Bash" 2 rfl⟩

open AgentRuntime in
/-- C7: the sub-agent action vocabulary (`SubTool`, modelled from the spec's
description of the `SubAgentTools` schema) excludes the sub-agent-spawning
`"Agent"` kind, and consequently every event of a top-level run — the
spawned sub-agents' events included — carries depth at most 1: nesting never
exceeds depth 1. -/
theorem c7_subagent_vocabulary_caps_depth :
    (∀ s : SubTool, (s.val.action == "Agent") = false) ∧
    (∀ (env : Env) (st : AgentState) (u : String) (n : Nat),
      events_le 1 (run_loop env st u n 0).events = true) := by
  constructor
  · intro s
    exact beq_eq_false_iff_ne.mpr s.property
  · intro env st u n
    exact run_loop_aux_events_le env 0 n
      (if (0 : Nat) = 0 then { st with messages := st.messages ++ [⟨Role.user, u⟩] } else st)
      0 [] rfl

open AgentRuntime in
/-- C8: the retry/repair step operates on a scratch copy only — whatever its
outcome, the durable transcript is changed exclusively by a completed tool
dispatch (the call/result pair); in particular every terminal iteration,
retry exhaustion and oracle fault included, leaves it untouched, and a failed
sub-agent retry likewise leaves the nested durable transcript untouched. -/
theorem c8_retry_leaves_durable_transcript :
    (∀ (env : Env) (st : AgentState) (depth calls : Nat),
      ((run_iteration env st depth calls).is_complete = true →
        (run_iteration env st depth calls).state.messages = st.messages) ∧
      ((run_iteration env st depth calls).is_complete = false →
        ∃ t r, (run_iteration env st depth calls).state.messages
          = st.messages ++ pair_entries (t, r))) ∧
    (∀ (env : Env) (intr : Bool) (wd : String) (t : Tool) (pd : Nat)
        (msgs : List Message) (calls : Nat) (evs : List Event) (it rem : Nat)
        (msg : String) (calls2 : Nat),
      sub_retry env (t.getParam "prompt") msgs calls 3 = (SubRetryOut.failure msg, calls2) →
      (sub_loop env intr wd t pd msgs calls evs it (rem + 1)).sub_transcript = msgs) := by
  constructor
  · intro env st depth calls
    have h := run_iteration_spec env st depth calls
    exact ⟨h.2.2.2.2.1, fun hc => (h.2.2.2.2.2 hc).2⟩
  · intro env intr wd t pd msgs calls evs it rem msg calls2 h
    simp only [sub_loop, h]
    split <;> rfl

/-- Witness for C8: a concrete terminal iteration (oracle fault) leaves the
durable transcript untouched. -/
theorem c8_retry_leaves_durable_transcript_witness :
    (AgentRuntime.run_iteration env_fatal st_base 0 0).is_complete = true ∧
    (AgentRuntime.run_iteration env_fatal st_base 0 0).state.messages = st_base.messages :=
  ⟨by decide, (c8_retry_leaves_durable_transcript.1 env_fatal st_base 0 0).1 (by decide)⟩

/-- C9 counterexample: an action of a kind unknown to `main.execute_tool` is
not terminal.  The dispatcher's `"Unknown tool type: ..."` text becomes the
tool result appended to the transcript, and the iteration reports
`(False, None)` — the loop keeps running. -/
theorem c9_counterexample_unknown_kind_not_terminal :
    (AgentRuntime.run_iteration env_unknown_kind st_base 0 0).is_complete = false ∧
    (AgentRuntime.run_iteration env_unknown_kind st_base 0 0).result = none ∧
    (AgentRuntime.run_iteration env_unknown_kind st_base 0 0).state.messages
      = [⟨Role.assistant, "Tool: Frobnicate\n"⟩,
         ⟨Role.assistant, "Unknown tool type: Frobnicate"⟩] := by
  decide

open AgentRuntime in
/-- C9 (amended): a tool of a kind unknown to the dispatcher is executed like
any other tool — the dispatcher returns `"Unknown tool type: {kind}"`, which
is appended as the tool-result entry, and the loop continues; only a response
that is neither a `Reply` nor carries an `action` field is terminal, surfacing
`"Unexpected response type: {type}"` as the result. -/
theorem c9_unknown_kind_is_tool_result :
    (∀ (env : Env) (st : AgentState) (depth calls : Nat) (t : Tool),
      st.interrupt_requested = false →
      env.agentLoop calls st.messages = OracleR.ok (Response.tool t) →
      known_tool_kinds.contains t.action = false →
      t.action ≠ "Agent" →
      (run_iteration env st depth calls).is_complete = false ∧
      (run_iteration env st depth calls).result = none ∧
      (run_iteration env st depth calls).state.messages
        = st.messages ++
          [⟨Role.assistant, tool_call_str t⟩,
           ⟨Role.assistant, "Unknown tool type: " ++ t.action⟩]) ∧
    (∀ (env : Env) (st : AgentState) (depth calls : Nat) (d : String),
      st.interrupt_requested = false →
      env.agentLoop calls st.messages = OracleR.ok (Response.other d) →
      (run_iteration env st depth calls).is_complete = true ∧
      (run_iteration env st depth calls).result
        = some ("Unexpected response type: " ++ d)) := by
  constructor
  · intro env st depth calls t hI horacle hunk hA
    have hbump : (bump st depth).interrupt_requested = false := by simp [bump, hI]
    have hretry : top_retry env (bump st depth).messages calls 3
        = (TopRetryOut.success (Response.tool t), calls + 1) := by
      have hm : env.agentLoop calls (bump st depth).messages = OracleR.ok (Response.tool t) := by
        simpa [bump] using horacle
      rw [show (3 : Nat) = 2 + 1 from rfl, top_retry_unfold, hm]
    simp only [run_iteration, hbump, Bool.false_eq_true, if_false, hretry, finish_tool,
               execute_tool, Main.execute_tool, hunk, hA, if_true, if_false]
    simp [bump]
  · intro env st depth calls d hI horacle
    have hbump : (bump st depth).interrupt_requested = false := by simp [bump, hI]
    have hretry : top_retry env (bump st depth).messages calls 3
        = (TopRetryOut.success (Response.other d), calls + 1) := by
      have hm : env.agentLoop calls (bump st depth).messages = OracleR.ok (Response.other d) := by
        simpa [bump] using horacle
      rw [show (3 : Nat) = 2 + 1 from rfl, top_retry_unfold, hm]
    simp [run_iteration, hbump, hretry]

/-- Witness for C9: the unknown-kind and no-`action`-field branches at a
concrete input. -/
theorem c9_unknown_kind_is_tool_result_witness :
    ((AgentRuntime.run_iteration env_unknown_kind st_counter_five 0 0).is_complete = false ∧
     (AgentRuntime.run_iteration env_unknown_kind st_counter_five 0 0).result = none ∧
     (AgentRuntime.run_iteration env_unknown_kind st_counter_five 0 0).state.messages
       = st_counter_five.messages ++
         [⟨Role.assistant, tool_call_str ⟨"Frobnicate", [("action", some "Frobnicate")]⟩⟩,
          ⟨Role.assistant, "Unknown tool type: " ++ "Frobnicate"⟩]) ∧
    ((AgentRuntime.run_iteration env_other st_base 0 0).is_complete = true ∧
     (AgentRuntime.run_iteration env_other st_base 0 0).result
       = some ("Unexpected response type: " ++ "NoneType")) :=
  ⟨c9_unknown_kind_is_tool_result.1 env_unknown_kind st_counter_five 0 0
      ⟨"Frobnicate", [("action", some "Frobnicate")]⟩ rfl rfl (by decide) (by decide),
   c9_unknown_kind_is_tool_result.2 env_other st_base 0 0 "NoneType" rfl rfl⟩

open AgentRuntime in
/-- C10: every transcript entry the loop itself appends — tool-call
encodings and tool results, at top level and inside sub-agents — carries the
assistant role; the only user-role entry is the initial user message, added
exactly once, at depth 0, at the start of the run. -/
theorem c10_loop_appends_assistant_only :
    (∀ (env : Env) (st : AgentState) (u : String) (n : Nat),
      ∃ rest : List Message,
        (run_loop env st u n 0).state.messages = st.messages ++ ⟨Role.user, u⟩ :: rest ∧
        rest.all (fun m => m.role == Role.assistant) = true) ∧
    (∀ (env : Env) (st : AgentState) (u : String) (n d : Nat),
      ∃ rest : List Message,
        (run_loop env st u n (d + 1)).state.messages = st.messages ++ rest ∧
        rest.all (fun m => m.role == Role.assistant) = true) ∧
    (∀ (env : Env) (intr : Bool) (wd : String) (t : Tool) (pd calls : Nat),
      (execute_sub_agent env intr wd t pd calls).sub_transcript.all
        (fun m => m.role == Role.assistant) = true) := by
  refine ⟨?_, ?_, ?_⟩
  · intro env st u n
    obtain ⟨⟨ps, hm⟩, -⟩ := run_loop_aux_spec env 0 n
      { st with messages := st.messages ++ [⟨Role.user, u⟩] } 0 []
    refine ⟨ps.flatMap pair_entries, ?_, pair_entries_flat_roles ps⟩
    have hrl : run_loop env st u n 0
        = run_loop_aux env 0 { st with messages := st.messages ++ [⟨Role.user, u⟩] } 0 [] n := rfl
    rw [hrl, hm]
    simp
  · intro env st u n d
    obtain ⟨⟨ps, hm⟩, -⟩ := run_loop_aux_spec env (d + 1) n st 0 []
    refine ⟨ps.flatMap pair_entries, ?_, pair_entries_flat_roles ps⟩
    have hrl : run_loop env st u n (d + 1) = run_loop_aux env (d + 1) st 0 [] n := rfl
    rw [hrl, hm]
  · intro env intr wd t pd calls
    obtain ⟨ps, hp⟩ := sub_loop_transcript env intr wd t pd 50 [] calls _ 0
    have : (execute_sub_agent env intr wd t pd calls).sub_transcript = ps.flatMap pair_entries := by
      simpa [execute_sub_agent] using hp
    rw [this]
    exact pair_entries_flat_roles ps

end AgenticRag
